import Mathlib

/-!
# Verification of the ReverseEngineering repository's specification

This file is a shallow embedding of the Python scripts of the
`ReverseEngineering` repository (Spring Boot source-tree analyzers that
classify Java files by annotation markers and emit C4/PlantUML diagram text)
together with proofs settling the frozen claims C1..C10.

Modelling conventions:
* A Python string is a Lean `String`; substring tests (`'x' in content`)
  become `strContains`.
* A Java source file is a record of its path, base name (stem) and its
  content; `content = none` models a file whose `read_text`/`open` raised
  (encoding or permission error).
* Each regular expression used by the scripts is embedded as a dedicated
  matcher implementing the leftmost-first backtracking semantics of that
  concrete pattern (greedy `[^)]*` is realised by trying the largest prefix
  first); `re.search` is `searchFirst`, `re.findall` is `findAllMatches`.
* Character classes `\w`, `\s`, `[a-zA-Z0-9_]` are modelled over ASCII,
  which covers every character the scripts' patterns are applied to.
-/

namespace RevEng

/-- ASCII word character, modelling `\w` of the Python patterns. -/
def wordChar (c : Char) : Bool :=
  (('a' ≤ c && c ≤ 'z') || ('A' ≤ c && c ≤ 'Z') || ('0' ≤ c && c ≤ '9') || c = '_')

/-- ASCII whitespace, modelling `\s` of the Python patterns. -/
def spaceChar (c : Char) : Bool :=
  (c = ' ' || c = '\t' || c = '\n' || c = '\r')

/-- The apostrophe character (ASCII 39). -/
def apos : Char := Char.ofNat 39

/-- A quote character: `["\x27"]` alternatives in the patterns. -/
def quoteChar (c : Char) : Bool := (c = '"' || c = apos)

/-- `needle` occurs as a contiguous substring of `hay`
(Python `needle in hay`). -/
def containsL (needle : List Char) : List Char → Bool
  | [] => needle.isEmpty
  | c :: rest => needle.isPrefixOf (c :: rest) || containsL needle rest

/-- Python `needle in hay` on strings. -/
def strContains (hay needle : String) : Bool := containsL needle.data hay.data

/-- Python `hay.endswith(suffix)`. -/
def strEndsWith (hay suffix : String) : Bool := suffix.data.isSuffixOf hay.data

/-- Python `s.lower()` (ASCII). -/
def strLower (s : String) : String := String.mk (s.data.map Char.toLower)

/-- Python `s.upper()` (ASCII). -/
def strUpper (s : String) : String := String.mk (s.data.map Char.toUpper)

/-- Strip a literal: if `lit` is a prefix of `l`, return the remainder. -/
def stripLit (lit : String) (l : List Char) : Option (List Char) :=
  if lit.data.isPrefixOf l then some (l.drop lit.data.length) else none

/-- Skip `\s*`. -/
def dropWs (l : List Char) : List Char := l.dropWhile (fun c => spaceChar c)

/-- Python `str.split()` (split on whitespace runs, no empty tokens). -/
def splitWs : List Char → List (List Char)
  | [] => []
  | c :: rest =>
    if spaceChar c then splitWs rest
    else
      match splitWs rest with
      | [] => [[c]]
      | w :: ws =>
        match rest with
        | [] => [[c]]
        | d :: _ => if spaceChar d then [c] :: w :: ws else (c :: w) :: ws

/-- Match `["\x27]([^"\x27]*)["\x27]` at the head of `l`: an opening quote,
a captured run of non-quote characters (possibly empty when `allowEmpty`,
else at least one), and a closing quote.  Returns the capture and the
remainder after the closing quote. -/
def scanQuoted (allowEmpty : Bool) (l : List Char) : Option (List Char × List Char) :=
  match l with
  | [] => none
  | q :: r =>
    if quoteChar q then
      let cap := r.takeWhile (fun c => !(quoteChar c))
      match r.dropWhile (fun c => !(quoteChar c)) with
      | [] => none
      | _ :: r2 => if allowEmpty || !cap.isEmpty then some (cap, r2) else none
    else none

/-- `re.search`: try the matcher at every position left to right. -/
def searchFirst (f : List Char → Option α) : List Char → Option α
  | [] => f []
  | c :: rest =>
    match f (c :: rest) with
    | some r => some r
    | none => searchFirst f rest

/-- Auxiliary for `re.findall`: fuelled scan; on a match, continue after the
match's end, otherwise advance one character. -/
def findAllAux (f : List Char → Option (α × List Char)) : Nat → List Char → List α
  | 0, _ => []
  | fuel + 1, l =>
    match f l with
    | some (a, rest) => a :: findAllAux f fuel rest
    | none =>
      match l with
      | [] => []
      | _ :: t => findAllAux f fuel t

/-- `re.findall` for a matcher returning (capture, remainder-after-match).
All patterns embedded here consume at least one character per match, so
fuel `l.length + 1` is sufficient. -/
def findAllMatches (f : List Char → Option (α × List Char)) (l : List Char) : List α :=
  findAllAux f (l.length + 1) l

/-- Backtracking for a greedy `[^)]*` followed by `tail`: try the largest
number of consumed non-`)` characters first (Python greedy semantics). -/
def tryBacktrackAux (tail : List Char → Option α) (l : List Char) : Nat → Option α
  | 0 => tail l
  | k + 1 =>
    match tail (l.drop (k + 1)) with
    | some r => some r
    | none => tryBacktrackAux tail l k

/-- Match `[^)]*` (greedy) followed by `tail`, leftmost-first. -/
def tryBacktrack (tail : List Char → Option α) (l : List Char) : Option α :=
  tryBacktrackAux tail l ((l.takeWhile (fun c => c ≠ ')')).length)

/-- Match `kw\s*=\s*["\x27]([^"\x27]+)["\x27]` at the head of `l`. -/
def tryKeyTail (kw : String) (l : List Char) : Option (List Char × List Char) :=
  match stripLit kw l with
  | none => none
  | some r1 =>
    match dropWs r1 with
    | '=' :: r2 => scanQuoted false (dropWs r2)
    | _ => none

/-!
## Common data model

A Java source file as the scripts see it: its (relative) path string, its
base name (`java_file.stem`) and its text, with `none` modelling a read
that raised. -/

structure JFile where
  path : String
  stem : String
  content : Option String
  deriving Repr, DecidableEq

/-- `java_file.name` for a file found by `rglob('*.java')`. -/
def JFile.fname (f : JFile) : String := f.stem ++ ".java"

/-!
## `c4-workspace/validated-c4-diagrams.py`
-/

/-- A dependency edge `{'from': ..., 'to': ..., 'type': ...}` produced by
`find_autowired_dependencies` (`from` and `to` are `src` and `tgt` here: both are reserved words in Lean). -/
structure Dep where
  src : String
  tgt : String
  type : String
  deriving Repr, DecidableEq

/-- One match of `@Autowired\s+(?:private|protected|public)\s+\w+\s+(\w+);`:
capture the field identifier. -/
def tryAutowired (l : List Char) : Option (List Char × List Char) :=
  match stripLit "@Autowired" l with
  | none => none
  | some r0 =>
    match r0 with
    | [] => none
    | c :: _ =>
      if spaceChar c then
        let r1 := dropWs r0
        let vis :=
          if "private".data.isPrefixOf r1 then some (r1.drop 7)
          else if "protected".data.isPrefixOf r1 then some (r1.drop 9)
          else if "public".data.isPrefixOf r1 then some (r1.drop 6)
          else none
        match vis with
        | none => none
        | some r2 =>
          match r2 with
          | [] => none
          | d :: _ =>
            if spaceChar d then
              let r3 := dropWs r2
              let ty := r3.takeWhile (fun c => wordChar c)
              if ty.isEmpty then none
              else
                let r4 := r3.drop ty.length
                match r4 with
                | [] => none
                | e :: _ =>
                  if spaceChar e then
                    let r5 := dropWs r4
                    let fld := r5.takeWhile (fun c => wordChar c)
                    if fld.isEmpty then none
                    else
                      match r5.drop fld.length with
                      | ';' :: r6 => some (fld, r6)
                      | _ => none
                  else none
            else none
      else none

/-- Match `\w+\s+\w+` at the head of `l` (greedy, maximal-munch): the
captured type–identifier pair of the constructor pattern's group. -/
def tryPairAt (l : List Char) : Option (List Char × List Char) :=
  let w1 := l.takeWhile (fun c => wordChar c)
  if w1.isEmpty then none
  else
    let r1 := l.drop w1.length
    let s := r1.takeWhile (fun c => spaceChar c)
    if s.isEmpty then none
    else
      let r2 := r1.drop s.length
      let w2 := r2.takeWhile (fun c => wordChar c)
      if w2.isEmpty then none
      else some (w1 ++ s ++ w2, r2.drop w2.length)

/-- After the captured pair, the pattern requires `[^)]*\)`:
succeed iff a `)` follows, ending the match right after it. -/
def ctorClose (pr : List Char × List Char) : Option (List Char × List Char) :=
  match pr.2.dropWhile (fun c => c ≠ ')') with
  | [] => none
  | _ :: r => some (pr.1, r)

/-- One match of `public\s+{cls}\s*\([^)]*(\w+\s+\w+)[^)]*\)` (the
constructor-injection pattern, `cls` inserted via `re.escape`). -/
def tryCtor (cls : String) (l : List Char) : Option (List Char × List Char) :=
  match stripLit "public" l with
  | none => none
  | some r0 =>
    match r0 with
    | [] => none
    | c :: _ =>
      if spaceChar c then
        match stripLit cls (dropWs r0) with
        | none => none
        | some r1 =>
          match dropWs r1 with
          | '(' :: r2 => tryBacktrack (fun l' => (tryPairAt l').bind ctorClose) r2
          | _ => none
      else none

/-- Python `param.strip().split()` on a captured pair, then the dependency
on `param_parts[1]` when there are at least two parts. -/
def ctorDep (source_class : String) (param : List Char) : List Dep :=
  match splitWs param with
  | _ :: p1 :: _ => [{ src := source_class, tgt := String.mk p1, type := "constructor" }]
  | _ => []

/-- `find_autowired_dependencies(content, source_class)`: `@Autowired`
field edges followed by constructor-injection edges. -/
def find_autowired_dependencies (content : String) (source_class : String) : List Dep :=
  (findAllMatches tryAutowired content.data).map
    (fun fld => { src := source_class, tgt := String.mk fld, type := "autowired" })
  ++ (findAllMatches (tryCtor source_class) content.data).flatMap (ctorDep source_class)

/-- One match of `@Table\s*\([^)]*name\s*=\s*["\x27]([^"\x27]+)["\x27]`. -/
def tryTableName (l : List Char) : Option (List Char × List Char) :=
  match stripLit "@Table" l with
  | none => none
  | some r0 =>
    match dropWs r0 with
    | '(' :: r1 => tryBacktrack (tryKeyTail "name") r1
    | _ => none

/-- `extract_table_name(content)`. -/
def extract_table_name (content : String) : Option String :=
  (searchFirst tryTableName content.data).map (fun pr => String.mk pr.1)

/-- An entry of the per-kind component lists of
`analyze_spring_components`. -/
structure VEntry where
  name : String
  file : String
  dependencies : List Dep := []
  table : Option String := none
  deriving Repr, DecidableEq

/-- The `components` dictionary of `analyze_spring_components`. -/
structure VComponents where
  rest_controllers : List VEntry := []
  services : List VEntry := []
  repositories : List VEntry := []
  jpa_repositories : List VEntry := []
  entities : List VEntry := []
  configs : List VEntry := []
  components : List VEntry := []
  deriving Repr, DecidableEq

/-- One loop iteration of `analyze_spring_components`: classify the file by
the `elif` chain, collecting autowired/constructor dependencies for REST
controllers and services.  The state is the component dictionary and the
global `dependencies` list. -/
def vStep (st : VComponents × List Dep) (f : JFile) : VComponents × List Dep :=
  match f.content with
  | none => st
  | some content =>
    let (cs, deps) := st
    if strContains content "@RestController" then
      let ds := find_autowired_dependencies content f.stem
      ({ cs with rest_controllers :=
          cs.rest_controllers ++ [{ name := f.stem, file := f.path, dependencies := ds }] },
        deps ++ ds)
    else if strContains content "@Service" then
      let ds := find_autowired_dependencies content f.stem
      ({ cs with services :=
          cs.services ++ [{ name := f.stem, file := f.path, dependencies := ds }] },
        deps ++ ds)
    else if strContains content "@Repository" || strContains content "JpaRepository" then
      if strContains content "@Repository" then
        ({ cs with repositories := cs.repositories ++ [{ name := f.stem, file := f.path }] }, deps)
      else
        ({ cs with jpa_repositories := cs.jpa_repositories ++ [{ name := f.stem, file := f.path }] }, deps)
    else if strContains content "@Entity" then
      ({ cs with entities := cs.entities ++
          [{ name := f.stem, file := f.path, table := extract_table_name content }] }, deps)
    else if strContains content "@Configuration" then
      ({ cs with configs := cs.configs ++ [{ name := f.stem, file := f.path }] }, deps)
    else st

/-- `analyze_spring_components(project_path)` over the `rglob` file list:
returns the component dictionary and the accumulated dependency list. -/
def analyze_spring_components (files : List JFile) : VComponents × List Dep :=
  files.foldl vStep ({}, [])

/-- The dependencies contributed by one file of
`analyze_spring_components` (nonempty only for the `@RestController` and
`@Service` branches of its `elif` chain). -/
def vFileDeps (f : JFile) : List Dep :=
  match f.content with
  | none => []
  | some content =>
    if strContains content "@RestController" then find_autowired_dependencies content f.stem
    else if strContains content "@Service" then find_autowired_dependencies content f.stem
    else []

/-- `create_c3_component_diagram`'s count of `Rel` lines for dependency
edges of `ents` whose target name matches an entry of `targets`. -/
def resolvedCount (ents targets : List VEntry) (dependencies : List Dep) : Nat :=
  (ents.map (fun e =>
    ((dependencies.filter (fun d => d.src == e.name)).filter
      (fun d => targets.any (fun t => t.name == d.tgt))).length)).sum

/-- `create_c3_component_diagram`'s keyword-based external-system `Rel`
count for one service entry. -/
def keywordRel (s : VEntry) : Nat :=
  (if ["payment", "raast", "transaction"].any (fun kw => strContains (strLower s.name) kw)
    then 1 else 0)
  + (if ["bank", "financial"].any (fun kw => strContains (strLower s.name) kw)
    then 1 else 0)

/-- The `valid_relationships` counter of `create_c3_component_diagram`:
controller→service resolved edges, service→repository resolved edges, one
repository→database `Rel` per displayed repository, and keyword-matched
service→external `Rel`s, over the truncated display slices. -/
def valid_relationships (cs : VComponents) (dependencies : List Dep) : Nat :=
  let controllers := cs.rest_controllers.take 4
  let services := cs.services.take 6
  let repos := (cs.repositories ++ cs.jpa_repositories).take 4
  resolvedCount controllers services dependencies
    + resolvedCount services repos dependencies
    + repos.length
    + (services.map keywordRel).sum

/-!
## `c4-workspace/hybrid-analyze.py`
-/

/-- An entry appended to one of the component lists of
`hybrid_spring_analysis` (`name`, `file`, `type`, optional `table`,
optional `inferred` flag). -/
structure HEntry where
  name : String
  file : String
  type : String
  table : Option String := none
  inferred : Bool := false
  deriving Repr, DecidableEq

/-- The `components` dictionary of `hybrid_spring_analysis`, in source
order. -/
structure HComponents where
  controllers : List HEntry := []
  rest_controllers : List HEntry := []
  services : List HEntry := []
  repositories : List HEntry := []
  jpa_repositories : List HEntry := []
  entities : List HEntry := []
  configs : List HEntry := []
  components : List HEntry := []
  rest_clients : List HEntry := []
  scheduled_tasks : List HEntry := []
  listeners : List HEntry := []
  aspects : List HEntry := []
  deriving Repr, DecidableEq

/-- `re.search(r'@(GetMapping|PostMapping|PutMapping|DeleteMapping|RequestMapping|PatchMapping)', content)`
tried at one position. -/
def tryMappingAnno (l : List Char) : Option Unit :=
  match l with
  | '@' :: r =>
    if ["GetMapping", "PostMapping", "PutMapping", "DeleteMapping", "RequestMapping",
        "PatchMapping"].any (fun a => a.data.isPrefixOf r)
    then some () else none
  | _ => none

/-- Whether the HTTP-verb mapping-marker regex finds a match in `content`. -/
def hasMappingAnno (content : String) : Bool :=
  (searchFirst tryMappingAnno content.data).isSome

/-- The keys of the `components` dictionary a classified file can be
appended under. -/
inductive HKind
  | controllers | rest_controllers | services | repositories | jpa_repositories
  | entities | configs | components | rest_clients
  deriving Repr, DecidableEq

/-- `components[key].append(entry)`. -/
def hAppend (k : HKind) (st : HComponents) (e : HEntry) : HComponents :=
  match k with
  | .controllers => { st with controllers := st.controllers ++ [e] }
  | .rest_controllers => { st with rest_controllers := st.rest_controllers ++ [e] }
  | .services => { st with services := st.services ++ [e] }
  | .repositories => { st with repositories := st.repositories ++ [e] }
  | .jpa_repositories => { st with jpa_repositories := st.jpa_repositories ++ [e] }
  | .entities => { st with entities := st.entities ++ [e] }
  | .configs => { st with configs := st.configs ++ [e] }
  | .components => { st with components := st.components ++ [e] }
  | .rest_clients => { st with rest_clients := st.rest_clients ++ [e] }

/-- The `elif` chain of `hybrid_spring_analysis`, deciding which single
dictionary key (if any) the file is appended under and with which entry.
Each `components[key].append({...})` of the source is rendered as
`some (key, {...})`; the stateful `not in` dedup checks of the inference
branches consult the lists accumulated so far in `st`. -/
def hybridDecide (st : HComponents) (f : JFile) (content : String) :
    Option (HKind × HEntry) :=
  let cn := f.stem
  if strContains content "@RestController" then
    some (.rest_controllers, { name := cn, file := f.path, type := "REST Controller" })
  else if strContains content "@Controller" then
    some (.controllers, { name := cn, file := f.path, type := "MVC Controller" })
  else if strContains content "@Service" then
    some (.services, { name := cn, file := f.path, type := "Service" })
  else if strContains content "@Repository" then
    some (.repositories, { name := cn, file := f.path, type := "Repository" })
  else if ["JpaRepository", "CrudRepository", "MongoRepository"].any
      (fun repo => strContains content repo) then
    some (.jpa_repositories, { name := cn, file := f.path, type := "JPA Repository" })
  else if strContains content "@Entity" then
    some (.entities, { name := cn, file := f.path, type := "JPA Entity",
                       table := extract_table_name content })
  else if strContains content "@Configuration" then
    some (.configs, { name := cn, file := f.path, type := "Configuration" })
  else if strContains content "@Component" then
    some (.components, { name := cn, file := f.path, type := "Component" })
  else if ["@FeignClient", "RestTemplate"].any (fun client => strContains content client) then
    some (.rest_clients, { name := cn, file := f.path, type := "REST Client" })
  else
    if (strEndsWith cn "Service" || strEndsWith cn "ServiceImpl"
        || strEndsWith cn "Manager" || strEndsWith cn "Processor")
        && !(strContains content "interface") then
      if st.services.any (fun s => s.name == cn) then none
      else some (.services, { name := cn, file := f.path, type := "Service (inferred)", inferred := true })
    else if (strEndsWith cn "Controller" || strEndsWith cn "Endpoint"
        || strEndsWith cn "Resource") && !(strContains content "interface") then
      if (st.rest_controllers ++ st.controllers).any (fun c => c.name == cn) then none
      else some (.rest_controllers, { name := cn, file := f.path, type := "Controller (inferred)", inferred := true })
    else if strEndsWith cn "Repository" && strContains content "interface" then
      if (st.repositories ++ st.jpa_repositories).any (fun r => r.name == cn) then none
      else some (.jpa_repositories, { name := cn, file := f.path, type := "Repository (inferred)", inferred := true })
    else if hasMappingAnno content then
      some (.rest_controllers, { name := cn, file := f.path, type := "Controller (mapped)", inferred := true })
    else if (strContains content "@Autowired" || strContains content "@Inject"
        || strContains content "@Resource") && !(strContains content "interface") then
      if (st.services ++ st.components).any (fun c => c.name == cn) then none
      else some (.components, { name := cn, file := f.path, type := "Component (inferred)", inferred := true })
    else none

/-- One loop iteration of `hybrid_spring_analysis`: an unreadable file
(`content = none`) is skipped by the `except` handler; otherwise the
`elif` chain appends the file's entry under at most one key. -/
def hybridStep (st : HComponents) (f : JFile) : HComponents :=
  match f.content with
  | none => st
  | some content =>
    match hybridDecide st f content with
    | some (k, e) => hAppend k st e
    | none => st

/-- `hybrid_spring_analysis(project_path)` over the `rglob` file list. -/
def hybrid_spring_analysis (files : List JFile) : HComponents :=
  files.foldl hybridStep {}

/-- `sum(len(components[key]) for key in components)`. -/
def hTotal (st : HComponents) : Nat :=
  st.controllers.length + st.rest_controllers.length + st.services.length
    + st.repositories.length + st.jpa_repositories.length + st.entities.length
    + st.configs.length + st.components.length + st.rest_clients.length
    + st.scheduled_tasks.length + st.listeners.length + st.aspects.length

/-!
### The six marker substrings of claim C1
-/

/-- The six marker annotations of claim C1, in classifier priority order. -/
inductive Marker
  | restController | service | repository | entity | configuration | component
  deriving Repr, DecidableEq

/-- The marker's literal substring. -/
def Marker.str : Marker → String
  | .restController => "@RestController"
  | .service => "@Service"
  | .repository => "@Repository"
  | .entity => "@Entity"
  | .configuration => "@Configuration"
  | .component => "@Component"

/-- All six markers. -/
def allMarkers : List Marker :=
  [.restController, .service, .repository, .entity, .configuration, .component]

/-- The file's text contains marker `m` and none of the other five. -/
def markerExclusiveB (content : String) (m : Marker) : Bool :=
  strContains content m.str &&
    allMarkers.all (fun m' => m' == m || !(strContains content m'.str))

/-- The file's text contains none of the classifier's additional trigger
substrings that sit between (or before) the six marker branches of the
`elif` chain. -/
def noExtraTriggersB (content : String) : Bool :=
  !(strContains content "@Controller") && !(strContains content "JpaRepository")
    && !(strContains content "CrudRepository") && !(strContains content "MongoRepository")

/-- The single-kind assignment claimed by C1: append the file's entry to
exactly the list corresponding to its marker (entry fields as in the
matching branch of `hybrid_spring_analysis`). -/
def hybridMarkerAdd (m : Marker) (st : HComponents) (f : JFile) (content : String) : HComponents :=
  match m with
  | .restController =>
    { st with rest_controllers := st.rest_controllers ++ [{ name := f.stem, file := f.path, type := "REST Controller" }] }
  | .service =>
    { st with services := st.services ++ [{ name := f.stem, file := f.path, type := "Service" }] }
  | .repository =>
    { st with repositories := st.repositories ++ [{ name := f.stem, file := f.path, type := "Repository" }] }
  | .entity =>
    { st with entities := st.entities ++
        [{ name := f.stem, file := f.path, type := "JPA Entity", table := extract_table_name content }] }
  | .configuration =>
    { st with configs := st.configs ++ [{ name := f.stem, file := f.path, type := "Configuration" }] }
  | .component =>
    { st with components := st.components ++ [{ name := f.stem, file := f.path, type := "Component" }] }

/-!
## `c4-generator/analyze_springboot.py`: `extract_service_components`
(the part before its `return`)
-/

/-- One loop iteration of `extract_service_components`: independent `if`
checks appending the file *name* to the `services`, `daos` and `entities`
lists; files under `target` and unreadable files are skipped. -/
def escStep (acc : List String × List String × List String) (f : JFile) :
    List String × List String × List String :=
  if strContains f.path "target" then acc
  else
    match f.content with
    | none => acc
    | some content =>
      let (ss, ds, es) := acc
      let ss' := if strContains content "@Service" || strEndsWith f.fname "Service.java"
        then ss ++ [f.fname] else ss
      let ds' := if strContains content "@Repository" || strEndsWith f.fname "DAO.java"
          || strEndsWith f.fname "Repository.java"
        then ds ++ [f.fname] else ds
      let es' := if strContains content "@Entity" || strContains content "@Table"
        then es ++ [f.fname] else es
      (ss', ds', es')

/-- `extract_service_components(service_path)` (the reachable part, up to
its `return services, daos, entities`). -/
def extract_service_components (files : List JFile) :
    List String × List String × List String :=
  files.foldl escStep ([], [], [])

/-!
## `c4-generator/analyze_springboot.py`: the `SpringBootAnalyzer` class

The filesystem is modelled as the list of directories visited by
`os.walk`, each carrying its base name (`Path.name`) and the files
directly in it together with the recursive `rglob` results used by the
per-service extraction methods.  File contents are decoded text (read
failures are modelled where a method catches them; `extract_service_name`
performs no catch and is applied to readable trees). -/

structure PFile where
  path : String
  name : String
  content : String
  deriving Repr, DecidableEq

structure PDir where
  path : String
  dname : String
  files : List PFile
  deriving Repr, DecidableEq

/-- `find_microservices`: the walk roots whose direct file list contains
`pom.xml` or `build.gradle`. -/
def find_microservices (dirs : List PDir) : List PDir :=
  dirs.filter (fun d =>
    d.files.any (fun f => f.name == "pom.xml") || d.files.any (fun f => f.name == "build.gradle"))

/-- Lazy capture `(.*?)` up to a closing literal, `.` not matching
newline. -/
def captureNoNl (close : String) : List Char → Option (List Char)
  | [] => none
  | c :: rest =>
    if close.data.isPrefixOf (c :: rest) then some []
    else if c = '\n' then none
    else (captureNoNl close rest).map (fun cs => c :: cs)

/-- One match of `<artifactId>(.*?)</artifactId>`. -/
def tryArtifactId (l : List Char) : Option (List Char) :=
  (stripLit "<artifactId>" l).bind (captureNoNl "</artifactId>")

/-- `extract_service_name(service_path)`: the first `artifactId` of
`pom.xml` when present, otherwise the directory's base name. -/
def extract_service_name (d : PDir) : String :=
  match d.files.find? (fun f => f.name == "pom.xml") with
  | some pom => ((searchFirst tryArtifactId pom.content.data).map String.mk).getD d.dname
  | none => d.dname

/-- A Python exception surfacing from `SpringBootAnalyzer.analyze`. -/
inductive PyErr
  | attributeError
  deriving Repr, DecidableEq

/-- The methods actually defined on the `SpringBootAnalyzer` class body. -/
def sbaMethods : List String :=
  ["__init__", "find_microservices", "extract_service_name",
   "find_application_properties", "_flatten_dict", "extract_service_components",
   "extract_feign_clients", "extract_rest_template_calls", "extract_database_info",
   "analyze", "generate_structurizr_dsl", "sanitize_id", "generate_report"]

/-- Python attribute lookup `self.<m>` on a `SpringBootAnalyzer` instance:
`AttributeError` when `m` is not a defined method. -/
def getattrSBA (m : String) : Except PyErr Unit :=
  if sbaMethods.contains m then .ok () else .error .attributeError

/-- `SpringBootAnalyzer.analyze`: when no project directory is found the
loop body never runs; otherwise the first iteration computes the service
name and properties (both total — their file reads are wrapped in
`try/except` or applied to decoded text) and then evaluates
`self.extract_rest_endpoints(service_path)`, whose attribute lookup fails
because no such method exists on the class (the REST-endpoint code sits
unreachably after the `return` of `extract_service_components`). -/
def analyze (dirs : List PDir) : Except PyErr Unit :=
  match find_microservices dirs with
  | [] => .ok ()
  | d :: _ =>
    let _ := extract_service_name d
    (getattrSBA "extract_rest_endpoints").map (fun _ => ())

/-!
### `extract_feign_clients` and the Python set-iteration order
-/

/-- One match of `@FeignClient\([^)]*name\s*=\s*["\x27]([^"\x27]+)["\x27]`. -/
def tryFeignName (l : List Char) : Option (List Char × List Char) :=
  (stripLit "@FeignClient(" l).bind (tryBacktrack (tryKeyTail "name"))

/-- One match of `@FeignClient\(["\x27]([^"\x27]+)["\x27]`. -/
def tryFeignPos (l : List Char) : Option (List Char × List Char) :=
  (stripLit "@FeignClient(" l).bind (scanQuoted false)

/-- The `@FeignClient` names one file contributes (named-argument pattern
matches first, then positional, as in the source). -/
def feignFileClients (f : JFile) : List String :=
  match f.content with
  | none => []
  | some c =>
    (findAllMatches tryFeignName c.data).map String.mk
      ++ (findAllMatches tryFeignPos c.data).map String.mk

/-- The element list of a Python set built by insertion: first-occurrence
deduplication.  The set's iteration order over these elements is *not*
determined by the program (CPython string hashing is randomized per
process via `PYTHONHASHSEED`), so `list(set(...))` is modelled as an
arbitrary order function applied to these elements. -/
def pySetAux : List String → List String → List String
  | [], _ => []
  | x :: rest, seen =>
    if seen.contains x then pySetAux rest seen else x :: pySetAux rest (x :: seen)

/-- First-occurrence deduplication (see `pySetAux`). -/
def pySetElems (l : List String) : List String := pySetAux l []

/-- `extract_feign_clients(service_path)`, parameterized by the
process-dependent set-iteration order `setOrder` used by
`list(set(feign_clients))`. -/
def extract_feign_clients (setOrder : List String → List String) (files : List JFile) :
    List String × List String :=
  let feign := files.flatMap feignFileClients
  let https := (files.filter (fun f =>
    match f.content with
    | some c => strContains c "WebClient" || strContains c "RestTemplate"
    | none => false)).map (fun f => f.fname)
  (setOrder (pySetElems feign), https)

/-!
### `extract_database_info`
-/

/-- A flat property mapping (dict): association list with unique keys. -/
def Props := List (String × String)

/-- Python `props[key]` / `key in props`. -/
def lookupP (props : Props) (k : String) : Option String :=
  (props.find? (fun p => p.1 == k)).map (fun p => p.2)

/-- `key in props`. -/
def hasKey (props : Props) (k : String) : Bool := (lookupP props k).isSome

/-- The `db_info` dictionary: `type` and `url` entries. -/
structure DbInfo where
  type : Option String := none
  url : Option String := none
  deriving Repr, DecidableEq

/-- Python `not db_info` (the dict is empty). -/
def dbIsEmpty (db : DbInfo) : Bool := db.type.isNone && db.url.isNone

/-- The datasource-URL keys, in the source's order. -/
def ds_url_keys : List String :=
  ["spring.datasource.url", "spring.r2dbc.url", "datasource.url",
   "jdbc.url", "db.url", "database.url", "hibernate.connection.url"]

/-- The driver-class keys, in the source's order. -/
def driver_keys : List String :=
  ["jdbc.driverClassName", "db.driver", "hibernate.connection.driver_class"]

/-- The `if/elif` substring cascade mapping a datasource URL to a database
type string. -/
def urlType (db_url : String) : String :=
  let low := strLower db_url
  if strContains low "postgresql" then "PostgreSQL"
  else if strContains low "mysql" then "MySQL"
  else if strContains low "oracle" then "Oracle"
  else if strContains low "sqlserver" then "SQL Server"
  else if strContains low "h2" then "H2"
  else if strContains low "mongodb" then "MongoDB"
  else "Database"

/-- The first loop of `extract_database_info`: first present URL key wins
(`break`), setting both `type` and `url`. -/
def urlLoop (props : Props) : List String → DbInfo
  | [] => {}
  | k :: ks =>
    match lookupP props k with
    | some db_url => { type := some (urlType db_url), url := some db_url }
    | none => urlLoop props ks

/-- A driver-class key is present and its value names one of the three
recognised databases. -/
def driverHit (props : Props) (k : String) : Bool :=
  match lookupP props k with
  | some v =>
    strContains (strLower v) "postgresql" || strContains (strLower v) "mysql"
      || strContains (strLower v) "oracle"
  | none => false

/-- The second loop of `extract_database_info`: driver-class keys, each
guarded by `not db_info`, no `break`. -/
def driverLoop (props : Props) (db : DbInfo) : List String → DbInfo
  | [] => db
  | k :: ks =>
    match lookupP props k with
    | some driver =>
      let low := strLower driver
      let db' :=
        if dbIsEmpty db && strContains low "postgresql" then { db with type := some "PostgreSQL" }
        else if dbIsEmpty db && strContains low "mysql" then { db with type := some "MySQL" }
        else if dbIsEmpty db && strContains low "oracle" then { db with type := some "Oracle" }
        else db
      driverLoop props db' ks
    | none => driverLoop props db ks

/-- `extract_database_info(props)`. -/
def extract_database_info (props : Props) : DbInfo :=
  let db1 := urlLoop props ds_url_keys
  let db2 := driverLoop props db1 driver_keys
  let db3 :=
    if (hasKey props "spring.jpa.database-platform"
        || hasKey props "spring.jpa.hibernate.ddl-auto"
        || hasKey props "hibernate.dialect") && dbIsEmpty db2
    then { db2 with type := some "JPA/Hibernate Database" } else db2
  if hasKey props "spring.data.mongodb.uri" || hasKey props "spring.data.mongodb.host"
      || hasKey props "mongodb.uri"
  then { db3 with type := some "MongoDB" } else db3

/-- The database-type derivation as the amended claim C8 states it:
stage 1, the first present datasource-URL key maps its value by the
substring cascade; stage 2, otherwise the first driver-class key whose
value names postgresql/mysql/oracle decides; stage 3, otherwise a present
JPA/Hibernate key yields the generic JPA type; finally a present MongoDB
URI/host key overrides the type. -/
def dbInfoSpec (props : Props) : DbInfo :=
  let base :=
    match ds_url_keys.find? (fun k => hasKey props k) with
    | some k =>
      match lookupP props k with
      | some db_url => { type := some (urlType db_url), url := some db_url : DbInfo }
      | none => {}
    | none =>
      match driver_keys.find? (driverHit props) with
      | some k =>
        match lookupP props k with
        | some v =>
          let low := strLower v
          if strContains low "postgresql" then { type := some "PostgreSQL" }
          else if strContains low "mysql" then { type := some "MySQL" }
          else { type := some "Oracle" }
        | none => {}
      | none =>
        if hasKey props "spring.jpa.database-platform"
            || hasKey props "spring.jpa.hibernate.ddl-auto"
            || hasKey props "hibernate.dialect"
        then { type := some "JPA/Hibernate Database" } else {}
  if hasKey props "spring.data.mongodb.uri" || hasKey props "spring.data.mongodb.host"
      || hasKey props "mongodb.uri"
  then { base with type := some "MongoDB" } else base

/-- `sanitize_id(name)`: `re.sub(r'[^a-zA-Z0-9_]', '_', name)` replaces
each character outside the class, scanning left to right. -/
def sanAux : List Char → List Char
  | [] => []
  | c :: r => (if wordChar c then c else '_') :: sanAux r

/-- `SpringBootAnalyzer.sanitize_id`. -/
def sanitize_id (name : String) : String := String.mk (sanAux name.data)

/-!
## Endpoint extraction

Two variants: `extract_api_endpoints` of
`c4-workspace/enhanced-c4-analyzer.py`, and the REST-endpoint code of
`c4-generator/analyze_springboot.py` placed (unreachably) after the
`return` of `extract_service_components`, embedded here as
`extract_rest_endpoints` exactly as that source text reads. -/

/-- An endpoint record of `extract_api_endpoints`. -/
structure Endpoint where
  method : String
  path : String
  controller : String
  deriving Repr, DecidableEq

/-- One match of `@RequestMapping\s*\(\s*["\x27]([^"\x27]*)["\x27]`
(class-level mapping of the enhanced variant; empty capture allowed). -/
def tryReqMapWs (l : List Char) : Option (List Char × List Char) :=
  (stripLit "@RequestMapping" l).bind (fun r0 =>
    match dropWs r0 with
    | '(' :: r1 => scanQuoted true (dropWs r1)
    | _ => none)

/-- The annotation alternatives of the enhanced method-level pattern. -/
def mappingAlts : List String :=
  ["GetMapping", "PostMapping", "PutMapping", "DeleteMapping", "RequestMapping", "PatchMapping"]

/-- One match of
`@(GetMapping|PostMapping|PutMapping|DeleteMapping|RequestMapping|PatchMapping)\s*\(\s*["\x27]([^"\x27]*)["\x27]`,
capturing the annotation name and the path. -/
def tryMethodMapWs (l : List Char) : Option ((String × List Char) × List Char) :=
  match l with
  | '@' :: r =>
    match mappingAlts.find? (fun a => a.data.isPrefixOf r) with
    | some a =>
      match dropWs (r.drop a.data.length) with
      | '(' :: r1 => (scanQuoted true (dropWs r1)).map (fun pr => ((a, pr.1), pr.2))
      | _ => none
    | none => none
  | _ => none

/-- Python `s.replace('Mapping', '')` (left-to-right, non-overlapping). -/
def removeMappingL : List Char → List Char
  | 'M' :: 'a' :: 'p' :: 'p' :: 'i' :: 'n' :: 'g' :: rest => removeMappingL rest
  | c :: rest => c :: removeMappingL rest
  | [] => []

/-- Python `s.replace("//", "/")` (left-to-right, non-overlapping). -/
def collapseSlashL : List Char → List Char
  | '/' :: '/' :: rest => '/' :: collapseSlashL rest
  | c :: rest => c :: collapseSlashL rest
  | [] => []

/-- The endpoints one file contributes in `extract_api_endpoints`:
for controller files, the class-level base path (first positional-string
`@RequestMapping`, else empty) concatenated with each method-level
mapping's positional path, `//` collapsed, empty paths dropped. -/
def fileEndpoints (f : JFile) : List Endpoint :=
  match f.content with
  | none => []
  | some content =>
    if strContains content "@RestController" || strContains content "@Controller" then
      let base := (((searchFirst tryReqMapWs content.data).map (fun pr => pr.1)).getD [])
      (findAllMatches tryMethodMapWs content.data).foldl
        (fun eps m =>
          let full := collapseSlashL (base ++ m.2)
          if full.isEmpty then eps
          else eps ++ [{ method := strUpper (String.mk (removeMappingL m.1.data)),
                         path := String.mk full, controller := f.stem }])
        []
    else []

/-- `extract_api_endpoints(project_path)` (enhanced variant): all files'
endpoints, first 10 returned. -/
def extract_api_endpoints (files : List JFile) : List Endpoint :=
  (files.flatMap fileEndpoints).take 10

/-- The REST-annotation markers tested by `extract_rest_endpoints`. -/
def restAnnos : List String :=
  ["@RestController", "@Controller", "@RequestMapping", "@GetMapping",
   "@PostMapping", "@PutMapping", "@DeleteMapping", "@PatchMapping"]

/-- One match of `@RequestMapping\(["\x27]([^"\x27]+)["\x27]`. -/
def tryReqMapTight (l : List Char) : Option (List Char × List Char) :=
  (stripLit "@RequestMapping(" l).bind (scanQuoted false)

/-- One match of
`@RequestMapping\([^)]*value\s*=\s*["\x27]([^"\x27]+)["\x27]`. -/
def tryReqMapValue (l : List Char) : Option (List Char × List Char) :=
  (stripLit "@RequestMapping(" l).bind (tryBacktrack (tryKeyTail "value"))

/-- The five verb alternatives of the method-level patterns. -/
def verbs5 : List String := ["Get", "Post", "Put", "Delete", "Patch"]

/-- One match of `@(?:Get|Post|Put|Delete|Patch)Mapping\(["\x27]([^"\x27]+)["\x27]`. -/
def tryVerbMapTight (l : List Char) : Option (List Char × List Char) :=
  match l with
  | '@' :: r =>
    match verbs5.find? (fun v => v.data.isPrefixOf r) with
    | some v => (stripLit "Mapping(" (r.drop v.data.length)).bind (scanQuoted false)
    | none => none
  | _ => none

/-- One match of
`@(?:Get|Post|Put|Delete|Patch)Mapping\([^)]*value\s*=\s*["\x27]([^"\x27]+)["\x27]`. -/
def tryVerbMapValue (l : List Char) : Option (List Char × List Char) :=
  match l with
  | '@' :: r =>
    match verbs5.find? (fun v => v.data.isPrefixOf r) with
    | some v => (stripLit "Mapping(" (r.drop v.data.length)).bind (tryBacktrack (tryKeyTail "value"))
    | none => none
  | _ => none

/-- Match `method\s*=\s*RequestMethod\.(\w+)` at the head of `l`. -/
def tryMethodEq (l : List Char) : Option (List Char × List Char) :=
  (stripLit "method" l).bind (fun r0 =>
    match dropWs r0 with
    | '=' :: r1 =>
      (stripLit "RequestMethod." (dropWs r1)).bind (fun r2 =>
        let w := r2.takeWhile (fun c => wordChar c)
        if w.isEmpty then none else some (w, r2.drop w.length))
    | _ => none)

/-- One match of
`@RequestMapping\([^)]*value\s*=\s*["\x27]([^"\x27]+)["\x27][^)]*method\s*=\s*RequestMethod\.(\w+)`,
capturing (path, HTTP method). -/
def tryReqMapValueMethod (l : List Char) : Option ((List Char × List Char) × List Char) :=
  (stripLit "@RequestMapping(" l).bind
    (tryBacktrack (fun l1 =>
      (tryKeyTail "value" l1).bind (fun pr =>
        (tryBacktrack tryMethodEq pr.2).map (fun pr2 => ((pr.1, pr2.1), pr2.2)))))

/-- The endpoint/controller contribution of one file in
`extract_rest_endpoints`: if any REST annotation marker occurs, record the
file name as a controller, compute the class-level base path (positional
pattern first, then the `value=` pattern, else empty), and append
`base + path` for every match of the three method patterns in order. -/
def deadFileEndpoints (f : JFile) : List String × List String :=
  match f.content with
  | none => ([], [])
  | some content =>
    if restAnnos.any (fun anno => strContains content anno) then
      let base :=
        match searchFirst tryReqMapTight content.data with
        | some pr => pr.1
        | none =>
          match searchFirst tryReqMapValue content.data with
          | some pr => pr.1
          | none => []
      let e1 := (findAllMatches tryVerbMapTight content.data).map
        (fun cap => String.mk (base ++ cap))
      let e2 := (findAllMatches tryVerbMapValue content.data).map
        (fun cap => String.mk (base ++ cap))
      let e3 := (findAllMatches tryReqMapValueMethod content.data).map
        (fun pr => String.mk (base ++ pr.1))
      (e1 ++ e2 ++ e3, [f.fname])
    else ([], [])

/-- `extract_rest_endpoints(service_path)` as the unreachable source text
after the `return` of `extract_service_components` reads: returns
`(endpoints, controllers)` accumulated over the files. -/
def extract_rest_endpoints (files : List JFile) : List String × List String :=
  files.foldl
    (fun acc f =>
      let pr := deadFileEndpoints f
      (acc.1 ++ pr.1, acc.2 ++ pr.2))
    ([], [])

/-!
## `c4-workspace/scripts/analyze_spring.py`
-/

/-- The apostrophe as a string (PlantUML comment marker). -/
def sq : String := String.singleton apos

/-- An entry of `analyze_spring_boot_project`'s result lists. -/
structure SEntry where
  name : String
  file : String
  type : String
  deriving Repr, DecidableEq

/-- The `results` dictionary of `analyze_spring_boot_project`. -/
structure SResults where
  microservice_name : String
  controllers : List SEntry := []
  services : List SEntry := []
  repositories : List SEntry := []
  entities : List SEntry := []
  configurations : List SEntry := []
  deriving Repr, DecidableEq

/-- One loop iteration of `analyze_spring_boot_project` (its `elif`
chain); unreadable files only print an error. -/
def sStep (st : SResults) (f : JFile) : SResults :=
  match f.content with
  | none => st
  | some content =>
    if strContains content "@RestController" || strContains content "@Controller" then
      { st with controllers := st.controllers ++ [{ name := f.stem, file := f.path, type := "Controller" }] }
    else if strContains content "@Service" then
      { st with services := st.services ++ [{ name := f.stem, file := f.path, type := "Service" }] }
    else if strContains content "@Repository" || strContains content "extends JpaRepository" then
      { st with repositories := st.repositories ++ [{ name := f.stem, file := f.path, type := "Repository" }] }
    else if strContains content "@Entity" then
      { st with entities := st.entities ++ [{ name := f.stem, file := f.path, type := "Entity" }] }
    else if strContains content "@Configuration" || strContains content "@Bean" then
      { st with configurations := st.configurations ++ [{ name := f.stem, file := f.path, type := "Configuration" }] }
    else st

/-- `analyze_spring_boot_project(project_path)`. -/
def analyze_spring_boot_project (ms_name : String) (files : List JFile) : SResults :=
  files.foldl sStep { microservice_name := ms_name }

/-- A `Component(...)` line of `generate_c4_diagram`: the identifier is
the component's *lowercased* name. -/
def sCompLine (kind : String) (e : SEntry) : String :=
  "Component(" ++ strLower e.name ++ ", \"" ++ e.name ++ "\", \"" ++ kind ++ "\")\n"

/-- The diagram text written by `generate_c4_diagram` (the sequence of
`f.write` payloads, concatenated). -/
def generate_c4_diagram (results : SResults) : String :=
  "@startuml\n"
  ++ "!include https://raw.githubusercontent.com/plantuml-stdlib/C4-PlantUML/master/C4_Container.puml\n"
  ++ "!include https://raw.githubusercontent.com/plantuml-stdlib/C4-PlantUML/master/C4_Component.puml\n\n"
  ++ "title Container Diagram for " ++ results.microservice_name ++ "\n\n"
  ++ "Container(webapp, \"Web Application\", \"Spring Boot\", \"Provides REST API\")\n"
  ++ "ContainerDb(database, \"Database\", \"MySQL\", \"Stores application data\")\n\n"
  ++ (if results.controllers.isEmpty then "" else
      sq ++ " === Controllers ===\n"
        ++ String.join (results.controllers.map (sCompLine "Spring Controller")) ++ "\n")
  ++ (if results.services.isEmpty then "" else
      sq ++ " === Services ===\n"
        ++ String.join (results.services.map (sCompLine "Spring Service")) ++ "\n")
  ++ (if results.repositories.isEmpty then "" else
      sq ++ " === Repositories ===\n"
        ++ String.join (results.repositories.map (sCompLine "Spring Repository")) ++ "\n")
  ++ sq ++ " === Relationships ===\n"
  ++ "Rel(webapp, database, \"Reads/Writes\", \"JDBC\")\n"
  ++ String.join (results.controllers.map (fun c =>
      String.join (results.services.map (fun s =>
        "Rel(" ++ strLower c.name ++ ", " ++ strLower s.name ++ ", \"Uses\")\n"))))
  ++ String.join (results.services.map (fun s =>
      String.join (results.repositories.map (fun r =>
        "Rel(" ++ strLower s.name ++ ", " ++ strLower r.name ++ ", \"Uses\")\n"))))
  ++ String.join (results.repositories.map (fun r =>
      "Rel(" ++ strLower r.name ++ ", database, \"Reads/Writes\")\n"))
  ++ "\n@enduml"

/-!
## `hybrid-analyze.py`: `create_rich_architecture_diagram` and
`print_hybrid_summary`
-/

/-- `", ".join(names)`. -/
def joinComma (names : List String) : String := String.intercalate ", " names

/-- The `puml_lines` list assembled by `create_rich_architecture_diagram`
(pure text assembly; the file write and the PlantUML subprocess are
external effects outside this model). -/
def create_rich_architecture_diagram (project : String) (c : HComponents) : List String :=
  let total_controllers := c.rest_controllers.length + c.controllers.length
  let total_services := c.services.length
  let total_repos := c.repositories.length + c.jpa_repositories.length
  let total_entities := c.entities.length
  ["@startuml",
   "!include https://raw.githubusercontent.com/plantuml-stdlib/C4-PlantUML/master/C4_Container.puml",
   "!include https://raw.githubusercontent.com/plantuml-stdlib/C4-PlantUML/master/C4_Component.puml",
   "",
   "title Detailed Spring Boot Architecture: " ++ project,
   sq ++ " Shows complete application structure with all discovered components",
   "",
   "Person_Ext(client, \"External Client\", \"Uses microservice APIs\")",
   "System_Boundary(app, \"Spring Boot Application: " ++ project ++ "\") \x7b",
   "",
   "    Container_Boundary(api_layer, \"API Layer\") \x7b"]
  ++ (if !c.rest_controllers.isEmpty then
        (c.rest_controllers.take 6).map (fun ctl =>
          "        Component(" ++ strLower ctl.name ++ ", \"" ++ ctl.name ++ "\", \"REST Controller\")")
      else ["        Component(api_placeholder, \"REST Controllers\", \"Spring MVC\", \"Not detected\")"])
  ++ (if !c.controllers.isEmpty then
        (c.controllers.take 3).map (fun ctl =>
          "        Component(" ++ strLower ctl.name ++ "_web, \"" ++ ctl.name ++ "\", \"Web Controller\")")
      else [])
  ++ ["    \x7d", "",
      "    Container_Boundary(business_layer, \"Business Layer\") \x7b"]
  ++ (if !c.services.isEmpty then
        (c.services.take 8).map (fun s =>
          "        Component(" ++ strLower s.name ++ ", \"" ++ s.name ++ "\", \"Business Service\")")
      else ["        Component(biz_placeholder, \"Business Services\", \"Spring\", \"Not detected\")"])
  ++ (if !c.components.isEmpty then
        (c.components.take 5).map (fun comp =>
          "        Component(" ++ strLower comp.name ++ "_comp, \"" ++ comp.name ++ "\", \"Component\")")
      else [])
  ++ ["    \x7d", "",
      "    Container_Boundary(data_layer, \"Data Layer\") \x7b"]
  ++ (if !c.repositories.isEmpty || !c.jpa_repositories.isEmpty then
        (c.repositories.take 4).map (fun r =>
          "        Component(" ++ strLower r.name ++ ", \"" ++ r.name ++ "\", \"Repository\")")
        ++ (c.jpa_repositories.take 4).map (fun r =>
          "        Component(" ++ strLower r.name ++ "_jpa, \"" ++ r.name ++ "\", \"JPA Repository\")")
      else ["        Component(data_placeholder, \"Data Repositories\", \"Spring Data\", \"Not detected\")"])
  ++ ["    \x7d", "", "\x7d", "",
      "ContainerDb(database, \"Database\", \"MySQL\", \"Stores application data\")"]
  ++ (if !c.rest_clients.isEmpty then
        ["System_Ext(external_api, \"External API\", \"Third-party services\")"] else [])
  ++ ["", sq ++ " === JPA Entities === "]
  ++ (c.entities.take 12).enum.flatMap (fun pr =>
      let tinfo := match pr.2.table with | some t => " → " ++ t | none => ""
      ["Component(entity_" ++ toString pr.1 ++ ", \"" ++ pr.2.name ++ tinfo ++ "\", \"JPA Entity\")",
       "Rel(entity_" ++ toString pr.1 ++ ", database, \"maps to\")"])
  ++ ["", sq ++ " === Core Application Flow ===",
      "Rel(client, api_layer, \"HTTP REST API\", \"JSON/HTTPS\")"]
  ++ (if !c.rest_controllers.isEmpty && !c.services.isEmpty then
        ["Rel(api_layer, business_layer, \"delegates to\", \"method calls\")"] else [])
  ++ (if !c.services.isEmpty && (!c.repositories.isEmpty || !c.jpa_repositories.isEmpty) then
        ["Rel(business_layer, data_layer, \"data access\", \"Spring Data\")"] else [])
  ++ (if !c.repositories.isEmpty || !c.jpa_repositories.isEmpty then
        ["Rel(data_layer, database, \"persistence\", \"JDBC/JPA\")"]
      else ["Rel(business_layer, database, \"direct access\", \"JDBC\")"])
  ++ (if !c.entities.isEmpty && (!c.repositories.isEmpty || !c.jpa_repositories.isEmpty) then
        ["Rel(data_layer, database, \"entity mapping\", \"JPA/Hibernate\")"] else [])
  ++ ["",
      "note right of database",
      "  **Database Schema**",
      "  Entities: " ++ toString total_entities]
  ++ (if !c.entities.isEmpty then
        ["  Sample: " ++ joinComma ((c.entities.take 8).map (fun e => e.name))]
        ++ (if total_entities > 8 then ["  ... and " ++ toString (total_entities - 8) ++ " more"] else [])
      else [])
  ++ ["end note", "",
      "note left of api_layer",
      "  **API Layer**",
      "  Controllers: " ++ toString total_controllers]
  ++ (if !c.rest_controllers.isEmpty then ["  REST: " ++ toString c.rest_controllers.length] else [])
  ++ (if !c.controllers.isEmpty then ["  MVC: " ++ toString c.controllers.length] else [])
  ++ ["end note", "",
      "note left of business_layer",
      "  **Business Logic**",
      "  Services: " ++ toString total_services,
      "  Components: " ++ toString c.components.length]
  ++ (if !c.services.isEmpty then
        ["  Key Services: " ++ joinComma ((c.services.take 4).map (fun s => s.name))] else [])
  ++ ["end note", "",
      "legend right",
      "  == Architecture Summary ==",
      "  **" ++ project ++ "**",
      "  Controllers: " ++ toString total_controllers,
      "  Services: " ++ toString total_services,
      "  Repositories: " ++ toString total_repos,
      "  Entities: " ++ toString total_entities,
      "  Configurations: " ++ toString c.configs.length,
      "  Total Files: " ++ toString (hTotal c),
      "  == Layers ==",
      "  🎮 API - REST Controllers",
      "  ⚙️  Business - Services/Logic",
      "  💾 Data - Repositories",
      "  🏷️  Entities - JPA Models",
      "end legend",
      "",
      "@enduml"]

/-- `'='*80`. -/
def eq80 : String := String.mk (List.replicate 80 '=')

/-- `sum(len(components[key]) for key in components if key != 'entities')`. -/
def hSpringTotal (c : HComponents) : Nat := hTotal c - c.entities.length

/-- The `components.items()` pairs in dict insertion order. -/
def hPairs (c : HComponents) : List (String × List HEntry) :=
  [("controllers", c.controllers), ("rest_controllers", c.rest_controllers),
   ("services", c.services), ("repositories", c.repositories),
   ("jpa_repositories", c.jpa_repositories), ("entities", c.entities),
   ("configs", c.configs), ("components", c.components),
   ("rest_clients", c.rest_clients), ("scheduled_tasks", c.scheduled_tasks),
   ("listeners", c.listeners), ("aspects", c.aspects)]

/-- Python `str.title()` over ASCII. -/
def titleAux : Bool → List Char → List Char
  | _, [] => []
  | prevAlpha, c :: r =>
    (if c.isAlpha then (if prevAlpha then c.toLower else c.toUpper) else c) :: titleAux c.isAlpha r

/-- `key.replace('_', ' ').title()`. -/
def typeName (key : String) : String :=
  String.mk (titleAux false (key.data.map (fun c => if c = '_' then ' ' else c)))

/-- The lines printed by `print_hybrid_summary` (each `print` call is one
element; leading `\n` of an f-string stays inside the element). -/
def print_hybrid_summary (project : String) (c : HComponents) : List String :=
  ["\n" ++ eq80,
   "HYBRID ANALYSIS SUMMARY: " ++ project,
   eq80,
   "📊 TOTAL COMPONENTS: " ++ toString (hTotal c),
   "🔍 SPRING BEANS: " ++ toString (hSpringTotal c),
   "🏷️  JPA ENTITIES: " ++ toString c.entities.length,
   "\n🏗️  ARCHITECTURE BREAKDOWN:",
   "   🎮 API Layer (Controllers): " ++ toString (c.rest_controllers.length + c.controllers.length),
   "   ⚙️  Business Layer (Services): " ++ toString (c.services.length + c.components.length),
   "   💾 Data Layer (Repositories): " ++ toString (c.repositories.length + c.jpa_repositories.length),
   "   🏷️  Entity Layer (Models): " ++ toString c.entities.length,
   "\n📋 DETAILED FINDINGS:"]
  ++ (hPairs c).flatMap (fun pr =>
      if pr.2.isEmpty then []
      else ["   " ++ typeName pr.1 ++ ": " ++ toString pr.2.length ++ " → "
              ++ joinComma ((pr.2.take 3).map (fun it => it.name))
              ++ (if pr.2.length > 3 then "..." else "")])
  ++ ["\n🔍 ARCHITECTURE ASSESSMENT:"]
  ++ [if c.entities.length > 0 then
        "   ✅ Strong data model with " ++ toString c.entities.length ++ " entities"
      else "   ⚠️  No JPA entities detected"]
  ++ [if c.services.length > 0 then
        "   ✅ Business logic layer with " ++ toString c.services.length ++ " services"
      else "   ⚠️  Limited service layer detected"]
  ++ [if c.rest_controllers.length + c.controllers.length > 0 then
        "   ✅ API layer with " ++ toString (c.rest_controllers.length + c.controllers.length) ++ " controllers"
      else "   🔍 API layer components not detected - may use different patterns"]
  ++ [if c.repositories.length + c.jpa_repositories.length > 0 then
        "   ✅ Data access layer with " ++ toString (c.repositories.length + c.jpa_repositories.length) ++ " repositories"
      else "   🔍 Repository layer not detected - may use direct database access"]

/-!
## Concrete inputs used by the claim theorems and witnesses
-/

/-- A file whose text contains exactly the marker `@Entity` but whose base
name ends in `Service`. -/
def escEntityServiceFile : JFile :=
  { path := "src/main/java/FooService.java", stem := "FooService",
    content := some "@Entity public class FooService" }

/-- A file whose text contains exactly the marker `@Entity` among the six,
but also the substring `JpaRepository`. -/
def hybEntityJpaFile : JFile :=
  { path := "src/main/java/X.java", stem := "X",
    content := some "@Entity class X extends JpaRepository" }

/-- A plain `@Service` file (C1 witness). -/
def serviceFile : JFile :=
  { path := "src/main/java/S.java", stem := "S", content := some "@Service class S" }

/-- A walked directory containing a `pom.xml`: a found microservice. -/
def analyzerDirs : List PDir :=
  [{ path := "/workspace/app", dname := "app",
     files := [{ path := "/workspace/app/pom.xml", name := "pom.xml",
                 content := "<project><artifactId>pay-svc</artifactId></project>" }] }]

/-- Controller with positional class-level and method-level mappings. -/
def c4FilePos : JFile :=
  { path := "src/PayController.java", stem := "PayController",
    content := some "@RestController\n@RequestMapping(\"/api/v1\")\npublic class PayController \x7b\n  @PostMapping(\"/pay\")\n\x7d" }

/-- Controller whose class-level mapping uses the `value=` syntax and
whose method-level mapping is positional. -/
def c4FileValue : JFile :=
  { path := "src/PayController.java", stem := "PayController",
    content := some "@RestController\n@RequestMapping(value = \"/api/v1\")\npublic class PayController \x7b\n  @PostMapping(\"/pay\")\n\x7d" }

/-- Controller with no class-level mapping at all. -/
def c4FileNoBase : JFile :=
  { path := "src/PayController.java", stem := "PayController",
    content := some "@RestController\npublic class PayController \x7b\n  @PostMapping(\"/pay\")\n\x7d" }

/-- Controller using the `value=` syntax at both levels. -/
def c4FileValueBoth : JFile :=
  { path := "src/PayController.java", stem := "PayController",
    content := some "@RestController\n@RequestMapping(value = \"/api/v1\")\npublic class PayController \x7b\n  @PostMapping(value = \"/pay\")\n\x7d" }

/-- A file declaring three `@FeignClient`s, one name duplicated. -/
def feignFiles : List JFile :=
  [{ path := "src/A.java", stem := "A",
     content := some "@FeignClient(\"alpha\") @FeignClient(\"beta\") @FeignClient(\"alpha\")" }]

/-- A lone JPA repository interface: classified, but contributing no
dependency edges. -/
def repoOnlyFiles : List JFile :=
  [{ path := "src/FooRepo.java", stem := "FooRepo",
     content := some "public interface FooRepo extends JpaRepository<Foo, Long>" }]

/-- A class with a single simple constructor parameter. -/
def ctorOneParam : String :=
  "class Foo \x7b public Foo(Bar bar) \x7b this.bar = bar; \x7d \x7d"

/-- A class whose constructor has two simple parameters. -/
def ctorTwoParams : String :=
  "class Foo \x7b public Foo(Alpha a, Beta b) \x7b \x7d \x7d"

/-- Properties with a PostgreSQL driver class and a Hibernate dialect, but
no datasource-URL key. -/
def driverDialectProps : Props :=
  [("jdbc.driverClassName", "org.postgresql.Driver"),
   ("hibernate.dialect", "org.hibernate.dialect.PostgreSQLDialect")]

/-- A controller file whose class name contains a hyphen. -/
def hyphenFiles : List JFile :=
  [{ path := "/workspace/input/pay/src/Pay-Ctrl.java", stem := "Pay-Ctrl",
     content := some "@RestController public class PayCtrl" }]

/-- A source tree with a single file matching no classification rule. -/
def noMatchFiles : List JFile :=
  [{ path := "src/Readme.java", stem := "Readme", content := some "hello world" }]

/-!
## Helper lemmas
-/

/-- Skipping a file whose read raised leaves the hybrid state unchanged. -/
theorem hybridStep_none (st : HComponents) (f : JFile) (h : f.content = none) :
    hybridStep st f = st := by
  unfold hybridStep
  rw [h]

/-- Folding `hybridStep` ignores unreadable files. -/
theorem hybridFold_filter (files : List JFile) :
    ∀ st : HComponents,
      files.foldl hybridStep st
        = (files.filter (fun f => f.content.isSome)).foldl hybridStep st := by
  induction files with
  | nil => intro st; rfl
  | cons f fs ih =>
    intro st
    cases h : f.content with
    | none =>
      simp only [List.foldl_cons, List.filter_cons, h, Option.isSome_none,
        hybridStep_none st f h]
      exact ih st
    | some c =>
      simp only [List.foldl_cons, List.filter_cons, h, Option.isSome_some]
      exact ih (hybridStep st f)

/-- One `analyze_spring_components` iteration appends exactly the file's
dependency contribution to the global dependency list. -/
theorem vStep_snd (st : VComponents × List Dep) (f : JFile) :
    (vStep st f).2 = st.2 ++ vFileDeps f := by
  obtain ⟨cs, deps⟩ := st
  cases h : f.content with
  | none => simp [vStep, vFileDeps, h]
  | some content =>
    simp only [vStep, vFileDeps, h]
    repeat' split
    all_goals simp

/-- The dependency list accumulated by the `analyze_spring_components`
fold is the concatenation of the per-file contributions. -/
theorem vFold_snd (files : List JFile) :
    ∀ st : VComponents × List Dep,
      (files.foldl vStep st).2 = st.2 ++ (files.map vFileDeps).flatten := by
  induction files with
  | nil => intro st; simp
  | cons f fs ih =>
    intro st
    simp only [List.foldl_cons, List.map_cons, List.flatten_cons, ih, vStep_snd,
      List.append_assoc]

/-- A list of zeros sums to zero. -/
theorem sum_map_zero (l : List VEntry) : (l.map (fun _ => (0 : Nat))).sum = 0 := by
  induction l with
  | nil => rfl
  | cons x xs ih => simp [ih]

/-- With no dependency edges, `resolvedCount` vanishes. -/
theorem resolvedCount_nil (ents targets : List VEntry) :
    resolvedCount ents targets [] = 0 := by
  simp [resolvedCount]

/-- The URL loop picks the first present datasource-URL key. -/
theorem urlLoop_eq (props : Props) : ∀ ks : List String,
    urlLoop props ks
      = (match ks.find? (fun k => hasKey props k) with
        | some k =>
          (match lookupP props k with
            | some u => { type := some (urlType u), url := some u }
            | none => {})
        | none => {}) := by
  intro ks
  induction ks with
  | nil => rfl
  | cons k ks ih =>
    cases h : lookupP props k with
    | some u =>
      rw [List.find?_cons_of_pos _ (by simp [hasKey, h])]
      simp [urlLoop, h]
    | none =>
      rw [List.find?_cons_of_neg _ (by simp [hasKey, h])]
      simpa [urlLoop, h] using ih

/-- The driver loop leaves a nonempty `db_info` untouched. -/
theorem driverLoop_skip (props : Props) (db : DbInfo) (h : dbIsEmpty db = false) :
    ∀ ks : List String, driverLoop props db ks = db := by
  intro ks
  induction ks with
  | nil => rfl
  | cons k ks ih =>
    cases hk : lookupP props k with
    | some v => simpa [driverLoop, hk, h] using ih
    | none => simpa [driverLoop, hk] using ih

/-- Starting from an empty `db_info`, the driver loop is decided by the
first driver key whose value names one of the three databases. -/
theorem driverLoop_empty (props : Props) : ∀ ks : List String,
    driverLoop props {} ks
      = (match ks.find? (driverHit props) with
        | some k =>
          (match lookupP props k with
            | some v =>
              if strContains (strLower v) "postgresql" then { type := some "PostgreSQL" }
              else if strContains (strLower v) "mysql" then { type := some "MySQL" }
              else { type := some "Oracle" }
            | none => {})
        | none => {}) := by
  intro ks
  induction ks with
  | nil => rfl
  | cons k ks ih =>
    cases h : lookupP props k with
    | none =>
      rw [List.find?_cons_of_neg _ (by simp [driverHit, h])]
      simpa [driverLoop, h] using ih
    | some v =>
      by_cases hpg : strContains (strLower v) "postgresql" = true
      · rw [List.find?_cons_of_pos _ (by simp [driverHit, h, hpg])]
        rw [driverLoop, h]
        have hskip := driverLoop_skip props { type := some "PostgreSQL" } (by rfl)
        simp [dbIsEmpty, hpg, h, hskip]
      · by_cases hmy : strContains (strLower v) "mysql" = true
        · rw [List.find?_cons_of_pos _ (by simp [driverHit, h, hmy])]
          rw [driverLoop, h]
          have hskip := driverLoop_skip props { type := some "MySQL" } (by rfl)
          simp [dbIsEmpty, hpg, hmy, h, hskip]
        · by_cases hor : strContains (strLower v) "oracle" = true
          · rw [List.find?_cons_of_pos _ (by simp [driverHit, h, hor])]
            rw [driverLoop, h]
            have hskip := driverLoop_skip props { type := some "Oracle" } (by rfl)
            simp [dbIsEmpty, hpg, hmy, hor, h, hskip]
          · rw [List.find?_cons_of_neg _ (by simp [driverHit, h, hpg, hmy, hor])]
            rw [driverLoop, h]
            simpa [dbIsEmpty, hpg, hmy, hor] using ih

/-- `sanitize_id`'s scan is the character-wise replacement map. -/
theorem sanAux_map (l : List Char) :
    sanAux l = l.map (fun ch => if wordChar ch then ch else '_') := by
  induction l with
  | nil => rfl
  | cons c r ih => simp [sanAux, ih]

/-!
## Claim theorems
-/

/-- Claim C2 (code_bug).  The claim says no error is ever fatal and every
run completes producing outputs.  The hybrid analyzer does skip unreadable
files (second conjunct), but `SpringBootAnalyzer.analyze` aborts with
`AttributeError` on any tree containing a project directory, here
evaluated on a concrete one-project tree (first conjunct). -/
theorem c2_batch_fatality :
    analyze analyzerDirs = .error .attributeError ∧
    ∀ files : List JFile,
      hybrid_spring_analysis files
        = hybrid_spring_analysis (files.filter (fun f => f.content.isSome)) := by
  exact ⟨rfl, fun files => hybridFold_filter files {}⟩

/-- Claim C3 (confirmed).  `extract_rest_endpoints` is not among the
methods defined on `SpringBootAnalyzer`, so whenever `find_microservices`
locates at least one project directory, `analyze` raises
`AttributeError` in its first loop iteration. -/
theorem c3_analyze_attribute_error :
    sbaMethods.contains "extract_rest_endpoints" = false ∧
    ∀ dirs : List PDir, find_microservices dirs ≠ [] →
      analyze dirs = .error .attributeError := by
  refine ⟨by decide, ?_⟩
  intro dirs h
  unfold analyze
  cases hm : find_microservices dirs with
  | nil => exact absurd hm h
  | cons d rest => rfl

/-- Witness for C3: the hypothesis holds on the concrete one-project
tree. -/
theorem c3_analyze_attribute_error_witness :
    analyze analyzerDirs = .error .attributeError :=
  c3_analyze_attribute_error.2 analyzerDirs (by decide)

/-- Claim C5 (corrected), counterexample.  Both the identity and reversal
are admissible set-iteration orders (permutations of the deduplicated
feign-client elements), yet they yield different results of
`extract_feign_clients` on the same file list — so two runs of the
pipeline whose set orders differ (as across processes with different
`PYTHONHASHSEED`) do not produce identical report content. -/
theorem c5_counterexample :
    (∀ l : List String, List.Perm (id l) l) ∧
    (∀ l : List String, List.Perm (List.reverse l) l) ∧
    extract_feign_clients id feignFiles ≠ extract_feign_clients List.reverse feignFiles := by
  refine ⟨fun l => List.Perm.refl l, fun l => List.reverse_perm l, ?_⟩
  decide

/-- Claim C5 (corrected, amended).  Under any admissible set-iteration
order the feign-client list is a permutation of the canonical
(first-occurrence) one and the HTTP-client list is identical; hence the
pipeline is deterministic up to the process-dependent ordering of
`list(set(feign_clients))`, and classification results do not depend on
the order at all. -/
theorem c5_deterministic_up_to_set_order
    (setOrder : List String → List String) (files : List JFile)
    (h : ∀ l : List String, List.Perm (setOrder l) l) :
    List.Perm (extract_feign_clients setOrder files).1 (extract_feign_clients id files).1 ∧
    (extract_feign_clients setOrder files).2 = (extract_feign_clients id files).2 := by
  constructor
  · simpa [extract_feign_clients] using h (pySetElems (files.flatMap feignFileClients))
  · rfl

/-- Witness for C5's amended theorem at the reversal order on the
concrete feign file list. -/
theorem c5_deterministic_up_to_set_order_witness :
    List.Perm (extract_feign_clients List.reverse feignFiles).1
        (extract_feign_clients id feignFiles).1 ∧
    (extract_feign_clients List.reverse feignFiles).2
        = (extract_feign_clients id feignFiles).2 :=
  c5_deterministic_up_to_set_order List.reverse feignFiles (fun l => List.reverse_perm l)

/-- Claim C7 (corrected), counterexample.  For a constructor with two
simple unannotated parameters the inferrer emits a single
constructor-kind edge (to the last parameter identifier `b`); no edge
targeting the first parameter `a` is produced, contradicting
"one edge per parameter identifier". -/
theorem c7_counterexample :
    find_autowired_dependencies ctorTwoParams "Foo"
        = [{ src := "Foo", tgt := "b", type := "constructor" }] ∧
    ({ src := "Foo", tgt := "a", type := "constructor" } : Dep)
        ∉ find_autowired_dependencies ctorTwoParams "Foo" := by
  constructor
  · rfl
  · decide

/-- Claim C7 (corrected, amended).  Each match of the simplified
constructor regex yields at most one constructor edge; on a
single-parameter constructor the edge targets that parameter's
identifier, and on a two-parameter constructor exactly one edge is
produced, targeting the last parameter's identifier. -/
theorem c7_constructor_edge_per_match :
    (∀ (cls : String) (p : List Char), (ctorDep cls p).length ≤ 1) ∧
    find_autowired_dependencies ctorOneParam "Foo"
        = [{ src := "Foo", tgt := "bar", type := "constructor" }] ∧
    find_autowired_dependencies ctorTwoParams "Foo"
        = [{ src := "Foo", tgt := "b", type := "constructor" }] := by
  refine ⟨?_, rfl, rfl⟩
  intro cls p
  unfold ctorDep
  split <;> simp

/-- Claim C6 (corrected), counterexample.  On a tree with a single JPA
repository and no dependency edges at all, `valid_relationships` is 1
(the repository→database `Rel`), so the count is not computed from only
those edges whose target resolves to a discovered service or
repository. -/
theorem c6_counterexample :
    (analyze_spring_components repoOnlyFiles).2 = [] ∧
    valid_relationships (analyze_spring_components repoOnlyFiles).1
        (analyze_spring_components repoOnlyFiles).2 = 1 := by
  exact ⟨rfl, rfl⟩

/-- Claim C6 (corrected, amended).  Every extracted dependency edge is
retained in the returned dependency collection — the collection is
exactly the concatenation of the per-file extraction results, with no
resolution filtering (first conjunct) — while the `valid_relationships`
count equals, beyond the edges that resolve within the displayed slices,
one relationship per displayed repository plus the keyword-matched
service→external relationships; with no edges it degenerates to exactly
those code-independent summands (second conjunct). -/
theorem c6_dangling_edges_retained :
    (∀ files : List JFile,
      (analyze_spring_components files).2 = (files.map vFileDeps).flatten) ∧
    (∀ cs : VComponents,
      valid_relationships cs []
        = ((cs.repositories ++ cs.jpa_repositories).take 4).length
            + ((cs.services.take 6).map keywordRel).sum) := by
  constructor
  · intro files
    simpa using vFold_snd files ({}, [])
  · intro cs
    simp [valid_relationships, resolvedCount_nil]

/-- Claim C8 (corrected), counterexample.  With a PostgreSQL driver-class
key and a Hibernate-dialect key but no datasource-URL key, the inferred
type is `PostgreSQL` — not the generic JPA type the claim predicts for
"no URL key matches and a JPA/Hibernate-dialect key is present". -/
theorem c8_counterexample :
    (ds_url_keys.all (fun k => !(hasKey driverDialectProps k))) = true ∧
    hasKey driverDialectProps "hibernate.dialect" = true ∧
    extract_database_info driverDialectProps = { type := some "PostgreSQL", url := none } := by
  exact ⟨rfl, rfl, rfl⟩

/-- Claim C8 (corrected, amended).  `extract_database_info` equals the
staged derivation: first present datasource-URL key mapped by the
substring cascade; otherwise the first driver-class key naming
postgresql/mysql/oracle; otherwise a present JPA/Hibernate key gives the
generic JPA type; and a present MongoDB URI/host key overrides the final
type. -/
theorem c8_database_type_stages (props : Props) :
    extract_database_info props = dbInfoSpec props := by
  unfold extract_database_info dbInfoSpec
  rw [urlLoop_eq]
  cases hfind : ds_url_keys.find? (fun k => hasKey props k) with
  | some k =>
    have hk : hasKey props k = true := by simpa using List.find?_some hfind
    cases hlk : lookupP props k with
    | none => simp [hasKey, hlk] at hk
    | some u =>
      have hskip := driverLoop_skip props
        { type := some (urlType u), url := some u } (by rfl)
      simp [hlk, hskip, dbIsEmpty]
  | none =>
    dsimp only
    rw [driverLoop_empty]
    cases hdrv : driver_keys.find? (driverHit props) with
    | some k =>
      have hk : driverHit props k = true := List.find?_some hdrv
      cases hlk : lookupP props k with
      | none => simp [driverHit, hlk] at hk
      | some v =>
        by_cases hpg : strContains (strLower v) "postgresql" = true
        · simp [hlk, hpg, dbIsEmpty]
        · by_cases hmy : strContains (strLower v) "mysql" = true
          · simp [hlk, hpg, hmy, dbIsEmpty]
          · simp [hlk, hpg, hmy, dbIsEmpty]
    | none =>
      simp [dbIsEmpty]

/-- Claim C1 (corrected), counterexample.  Two files whose text contains
exactly one of the six markers and none of the others: the
`extract_service_components` variant counts the `@Entity` file named
`FooService.java` under both `services` and `entities`, and the hybrid
`elif` classifier assigns the `@Entity` file also containing the
`JpaRepository` substring to `jpa_repositories`, not `entities`. -/
theorem c1_counterexample :
    markerExclusiveB "@Entity public class FooService" .entity = true ∧
    extract_service_components [escEntityServiceFile]
        = (["FooService.java"], [], ["FooService.java"]) ∧
    markerExclusiveB "@Entity class X extends JpaRepository" .entity = true ∧
    (hybrid_spring_analysis [hybEntityJpaFile]).entities = [] ∧
    (hybrid_spring_analysis [hybEntityJpaFile]).jpa_repositories
        = [{ name := "X", file := "src/main/java/X.java", type := "JPA Repository" }] := by
  exact ⟨rfl, rfl, rfl, rfl, rfl⟩

/-- Claim C1 (corrected, amended).  For the hybrid `elif` classifier: a
file whose text contains exactly one of the six markers, none of the
others, and none of the additional trigger substrings (`@Controller`,
`JpaRepository`, `CrudRepository`, `MongoRepository`) is appended to
exactly the corresponding kind list; and every step of the classifier
grows the total component count by at most one (no file is ever counted
under more than one kind). -/
theorem c1_first_match_exclusive :
    (∀ (m : Marker) (st : HComponents) (f : JFile) (content : String),
      f.content = some content →
      markerExclusiveB content m = true →
      noExtraTriggersB content = true →
      hybridStep st f = hybridMarkerAdd m st f content) ∧
    (∀ (st : HComponents) (f : JFile), hTotal (hybridStep st f) ≤ hTotal st + 1) := by
  constructor
  · intro m st f content hc hex htrig
    simp only [noExtraTriggersB, Bool.and_eq_true, Bool.not_eq_true'] at htrig
    cases m
    all_goals
      simp [markerExclusiveB, allMarkers, Marker.str] at hex
      simp_all [hybridStep, hybridDecide, hAppend, hybridMarkerAdd]
  · intro st f
    cases hcf : f.content with
    | none => rw [hybridStep_none st f hcf]; exact Nat.le_succ _
    | some content =>
      unfold hybridStep
      rw [hcf]
      cases hd : hybridDecide st f content with
      | none => simp [hd]
      | some pr =>
        obtain ⟨k, e⟩ := pr
        have hk : hTotal (hAppend k st e) = hTotal st + 1 := by
          cases k
          all_goals dsimp only [hAppend, hTotal]
          all_goals simp only [List.length_append, List.length_cons, List.length_nil]
          all_goals omega
        simp [hd, hk]

/-- Witness for C1's amended theorem: a plain `@Service` file is appended
to exactly the `services` list. -/
theorem c1_first_match_exclusive_witness :
    hybridStep {} serviceFile = hybridMarkerAdd .service {} serviceFile "@Service class S" :=
  c1_first_match_exclusive.1 .service {} serviceFile "@Service class S" rfl
    (by decide) (by decide)

/-- Claim C4 (corrected), counterexample.  For a controller whose
class-level mapping uses the `value=` syntax, the enhanced
`extract_api_endpoints` treats the base path as absent and never produces
`/api/v1/pay`, contradicting "both the positional-string and value=
annotation syntaxes are matched". -/
theorem c4_counterexample :
    extract_api_endpoints [c4FileValue]
        = [{ method := "POST", path := "/pay", controller := "PayController" }] ∧
    ((extract_api_endpoints [c4FileValue]).any (fun e => e.path == "/api/v1/pay")) = false := by
  exact ⟨rfl, rfl⟩

/-- Claim C4 (corrected, amended).  Base–method concatenation holds in
both variants (the positional example yields `/api/v1/pay`; with no
class mapping the base defaults to empty), but only the
`analyze_springboot.py` extraction matches the `value=` syntax (at class
and at method level); the enhanced variant matches positional strings
only. -/
theorem c4_endpoint_concatenation :
    ((extract_api_endpoints [c4FilePos]).any (fun e => e.path == "/api/v1/pay")) = true ∧
    (extract_rest_endpoints [c4FilePos]).1 = ["/api/v1/pay"] ∧
    extract_api_endpoints [c4FileNoBase]
        = [{ method := "POST", path := "/pay", controller := "PayController" }] ∧
    (extract_rest_endpoints [c4FileNoBase]).1 = ["/pay"] ∧
    (extract_rest_endpoints [c4FileValue]).1 = ["/api/v1/pay"] ∧
    (extract_rest_endpoints [c4FileValueBoth]).1 = ["/api/v1/pay"] := by
  exact ⟨rfl, rfl, rfl, rfl, rfl, rfl⟩

set_option maxRecDepth 16384 in
/-- Claim C9 (corrected), counterexample.  The PlantUML generator of
`scripts/analyze_spring.py` uses the lowercased raw class name as the
component identifier: for the class `Pay-Ctrl` the diagram text contains
the identifier `pay-ctrl`, which contains a character outside the
letters/digits/underscore set — so not every identifier in generated
diagram text is produced by the sanitizing replacement. -/
theorem c9_counterexample :
    strContains (generate_c4_diagram (analyze_spring_boot_project "pay" hyphenFiles))
        "Component(pay-ctrl," = true ∧
    ("pay-ctrl".data.all (fun ch => wordChar ch)) = false := by
  exact ⟨rfl, rfl⟩

set_option maxRecDepth 16384 in
/-- Claim C9 (corrected, amended).  `sanitize_id` replaces every
character outside letters/digits/underscore by `_` (character-wise map;
`payment-service!2` ↦ `payment_service_2`), but the PlantUML generator
of `scripts/analyze_spring.py` emits lowercased unsanitized component
identifiers. -/
theorem c9_sanitize_id :
    (∀ s : String,
      (sanitize_id s).data = s.data.map (fun ch => if wordChar ch then ch else '_')) ∧
    sanitize_id "payment-service!2" = "payment_service_2" ∧
    strContains (generate_c4_diagram (analyze_spring_boot_project "pay" hyphenFiles))
        "Component(pay-ctrl, \"Pay-Ctrl\", \"Spring Controller\")" = true := by
  refine ⟨?_, rfl, rfl⟩
  intro s
  exact sanAux_map s.data

/-- Claim C10 (confirmed).  On any source tree whose classification is
empty, the rich-diagram text assembly is total and contains the three
placeholder component entries and the zero total, and the summary report
states zero components. -/
theorem c10_empty_tree_robust :
    ∀ (project : String) (files : List JFile),
      hybrid_spring_analysis files = {} →
      ("        Component(api_placeholder, \"REST Controllers\", \"Spring MVC\", \"Not detected\")"
          ∈ create_rich_architecture_diagram project (hybrid_spring_analysis files)) ∧
      ("        Component(biz_placeholder, \"Business Services\", \"Spring\", \"Not detected\")"
          ∈ create_rich_architecture_diagram project (hybrid_spring_analysis files)) ∧
      ("        Component(data_placeholder, \"Data Repositories\", \"Spring Data\", \"Not detected\")"
          ∈ create_rich_architecture_diagram project (hybrid_spring_analysis files)) ∧
      ("  Total Files: 0" ∈ create_rich_architecture_diagram project (hybrid_spring_analysis files)) ∧
      ("📊 TOTAL COMPONENTS: 0" ∈ print_hybrid_summary project (hybrid_spring_analysis files)) := by
  intro project files h
  rw [h]
  have htf : "  Total Files: " ++ toString (0 : Nat) = "  Total Files: 0" := rfl
  have htc : "📊 TOTAL COMPONENTS: " ++ toString (0 : Nat) = "📊 TOTAL COMPONENTS: 0" := rfl
  refine ⟨?_, ?_, ?_, ?_, ?_⟩ <;>
    simp [create_rich_architecture_diagram, print_hybrid_summary, hTotal, hSpringTotal,
      hPairs, sq, joinComma, eq80, htf, htc]

/-- Witness for C10 on a concrete unmatched tree. -/
theorem c10_empty_tree_robust_witness :
    ("        Component(api_placeholder, \"REST Controllers\", \"Spring MVC\", \"Not detected\")"
        ∈ create_rich_architecture_diagram "demo" (hybrid_spring_analysis noMatchFiles)) ∧
    ("        Component(biz_placeholder, \"Business Services\", \"Spring\", \"Not detected\")"
        ∈ create_rich_architecture_diagram "demo" (hybrid_spring_analysis noMatchFiles)) ∧
    ("        Component(data_placeholder, \"Data Repositories\", \"Spring Data\", \"Not detected\")"
        ∈ create_rich_architecture_diagram "demo" (hybrid_spring_analysis noMatchFiles)) ∧
    ("  Total Files: 0" ∈ create_rich_architecture_diagram "demo" (hybrid_spring_analysis noMatchFiles)) ∧
    ("📊 TOTAL COMPONENTS: 0" ∈ print_hybrid_summary "demo" (hybrid_spring_analysis noMatchFiles)) :=
  c10_empty_tree_robust "demo" noMatchFiles (by decide)

end RevEng
